import Mathlib

/-!
Verification of the SD-SLAM tracking front-end (`src/Tracking.cc`,
`src/Config.cc`) against its natural-language specification.

The embedding translates the state machine of the tracker and the per-frame
decision logic into executable Lean definitions.  External collaborators
(feature matcher, nonlinear optimizer, image alignment, local mapper) are
modelled as oracle inputs: each embedded routine takes the values those
collaborators would return as explicit arguments and reproduces the
control flow of the C++ source on top of them.  Machine floating-point
quantities (depths, angles, threshold ratios, the fps setting) are
modelled as rationals; all numeric literals of the source are exact in
this range, so the comparisons performed by the code are reproduced
exactly.
-/

namespace SDSLAM

/-- Tracker states, from `Tracking.h` usage in `Tracking.cc`
(`NO_IMAGES_YET`, `NOT_INITIALIZED`, `OK`, `LOST`). -/
inductive TrackingState where
  | NO_IMAGES_YET
  | NOT_INITIALIZED
  | OK
  | LOST
deriving DecidableEq, Repr

open TrackingState

/-- 4x4 homogeneous pose matrix, entries as exact rationals. -/
def Mat4 : Type := Fin 4 → Fin 4 → ℚ

instance : DecidableEq Mat4 :=
  inferInstanceAs (DecidableEq (Fin 4 → Fin 4 → ℚ))

/-- The all-zero pose matrix; `Eigen::Matrix4d::Zero()` / the value for
which `isZero()` holds. -/
def zeroMat4 : Mat4 := fun _ _ => 0

/-- The identity pose `Eigen::Matrix4d::Identity()`. -/
def idMat4 : Mat4 := fun i j => if i = j then 1 else 0

/-- The `isZero()` test of `Eigen` on a 4x4 matrix. -/
def isZero (T : Mat4) : Prop := T = zeroMat4

instance (T : Mat4) : Decidable (isZero T) := by
  unfold isZero; infer_instance

/-- One keypoint slot of the current frame as seen by the loops of
`Tracking.cc`: whether `mvpMapPoints[i]` is non-null, the outlier flag
`mvbOutlier[i]`, and the `Observations()` count of the map point. -/
structure FrameSlot where
  hasMapPoint : Bool
  outlier : Bool
  obs : ℕ
deriving DecidableEq, Repr

/-- The inlier-counting loop of `Tracking::TrackLocalMap`
(`Tracking.cc:931-939`): for each keypoint `i`, if `mvpMapPoints[i]` is
set and `mvbOutlier[i]` is false and the point has `Observations() > 0`,
`mnMatchesInliers` is incremented. -/
def countMatchesInliers : List FrameSlot → ℕ
  | [] => 0
  | s :: rest =>
      (if s.hasMapPoint then
        (if !s.outlier then (if s.obs > 0 then 1 else 0) else 0)
       else 0) + countMatchesInliers rest

/-- `Tracking::TrackLocalMap` success result (`Tracking.cc:943-948`):
the frame fails iff `mnMatchesInliers < 15`. -/
def trackLocalMapOk (slots : List FrameSlot) : Bool :=
  !(countMatchesInliers slots < 15)

/-- The state commit after tracking (`Tracking.cc:258-261`): `mState`
becomes `OK` when the frame succeeded and `LOST` otherwise. -/
def trackStateAfter (bOK : Bool) : TrackingState :=
  if bOK then OK else LOST

/-- Spec-side characterization of the inlier count: the number of
matched, non-outlier slots whose map point has at least one
observation. -/
def specInlierCount (slots : List FrameSlot) : ℕ :=
  (slots.filter (fun s => s.hasMapPoint && !s.outlier && decide (0 < s.obs))).length

/-- Oracle values returned by the external collaborators during one run
of `Tracking::TrackReferenceKeyFrame` (`Tracking.cc:609-670`): image
alignment outcome (`ImageAlign::ComputePose`), the pose it writes into
the frame when it succeeds, the two `SearchByProjection` match counts,
the pose written by `Optimizer::PoseOptimization`, and the number of
non-outlier matches with at least one observation after optimization. -/
structure RefTrackOracle where
  alignOk : Bool
  alignedPose : Mat4
  nmatches1 : ℕ
  nmatches2 : ℕ
  optPose : Mat4
  nmatchesMap : ℕ
deriving DecidableEq

/-- The frame pose at the point where descriptor matching begins in
`Tracking::TrackReferenceKeyFrame` (`Tracking.cc:612-625`): the pose is
seeded with `mLastFrame.GetPose()`; if `align_image_` is set, image
alignment may overwrite it, and on alignment failure the seed is written
back (`SetPose(last_pose)`). -/
def trackRefPoseAfterAlign (alignImage : Bool) (lastPose : Mat4)
    (o : RefTrackOracle) : Mat4 :=
  if alignImage then (if o.alignOk then o.alignedPose else lastPose)
  else lastPose

/-- `Tracking::TrackReferenceKeyFrame` (`Tracking.cc:609-670`), returning
the success flag together with the pose of the current frame when the routine
returns.  Control flow: after alignment, project reference-keyframe
points; if fewer than 20 matches, re-seed the pose with `last_pose` and
search again with a doubled window; if still fewer than 20, fail; else
optimize the pose and fail iff fewer than 10 non-outlier matches with
observations remain. -/
def trackReferenceKeyFrame (alignImage : Bool) (lastPose : Mat4)
    (o : RefTrackOracle) : Bool × Mat4 :=
  let pose0 := trackRefPoseAfterAlign alignImage lastPose o
  let pose1 := if o.nmatches1 < 20 then lastPose else pose0
  let nmatches := if o.nmatches1 < 20 then o.nmatches2 else o.nmatches1
  if nmatches < 20 then (false, pose1)
  else if o.nmatchesMap < 10 then (false, o.optPose)
  else (true, o.optPose)

/-- Oracle values for one `Tracking::Track` run that starts in state
`OK` with a cold motion model (so the reference-keyframe path at
`Tracking.cc:234-235` is taken): the `TrackReferenceKeyFrame` oracles,
the `TrackLocalMap` inlier slots and optimized pose, and the current
keyframe count of the map. -/
structure OkTrackOracle where
  refOracle : RefTrackOracle
  localSlots : List FrameSlot
  localOptPose : Mat4
  nKFs : ℕ
deriving DecidableEq

/-- Result of a `GrabImage{Monocular,RGBD,Fusion}` call: the tracker
state after `Track()` together with the returned pose
`mCurrentFrame.GetPose()` (`Tracking.cc:157,172,188`). -/
structure GrabResult where
  state : TrackingState
  pose : Mat4
deriving DecidableEq

/-- One `GrabImage*` call processed from state `OK` with a cold motion
model, as composed by `Tracking::Track` (`Tracking.cc:230-261`) and the
`GrabImage*` wrappers: run `TrackReferenceKeyFrame`; on success run
`TrackLocalMap` (which re-optimizes the pose); commit `OK`/`LOST`; the
wrapper returns the pose of the current frame. -/
def grabFromOkColdModel (lastPose : Mat4) (o : OkTrackOracle) : GrabResult :=
  let (bOK1, pose1) := trackReferenceKeyFrame true lastPose o.refOracle
  if bOK1 then
    let bOK2 := trackLocalMapOk o.localSlots
    { state := trackStateAfter bOK2, pose := o.localOptPose }
  else
    { state := trackStateAfter false, pose := pose1 }

/-- The path choice of `Tracking::Track` in state `OK`
(`Tracking.cc:234`): reference-keyframe tracking is used iff the motion
model has not started or `mCurrentFrame.mnId < mnLastRelocFrameId + 2`;
otherwise motion-model tracking is tried. -/
def trackUsesRefKF (motionStarted : Bool) (frameId lastRelocId : ℕ) : Bool :=
  !motionStarted || decide (frameId < lastRelocId + 2)

/-- 3x3 rotation matrix, entries as exact rationals. -/
def Mat3 : Type := Fin 3 → Fin 3 → ℚ

instance : DecidableEq Mat3 :=
  inferInstanceAs (DecidableEq (Fin 3 → Fin 3 → ℚ))

/-- `predicted_pose.block<3,3>(0,0) = R`: overwrite the upper-left 3x3
block of a 4x4 pose, leaving the fourth row and fourth column intact. -/
def replaceRotBlock (T : Mat4) (R : Mat3) : Mat4 :=
  fun i j =>
    if h : i.val < 3 ∧ j.val < 3 then R ⟨i.val, h.1⟩ ⟨j.val, h.2⟩
    else T i j

/-- The prediction step of `Tracking::TrackWithNewIMUModel`
(`Tracking.cc:750-788`): the motion-model prediction `predicted_pose`,
the Madgwick rotation `Rimu`, and the angular distance `angle` between
the rotation of the last frame and the Madgwick orientation are compared
against `movement_threshold = 0.02`; with the active `model = 1`, if
`angle > 0.02` (`stay_in_curve`) the rotation block of the prediction is
replaced by `Rimu`; otherwise the prediction is passed on unmodified to
`TrackVisual`. -/
def imuPredictedPose (predictedPose : Mat4) (Rimu : Mat3) (angle : ℚ) : Mat4 :=
  let stayInCurve := angle > 2/100
  if stayInCurve then replaceRotBlock predictedPose Rimu
  else predictedPose

/-- Result of `Tracking::StereoInitialization`: the tracker state, the
pose given to the first frame (`none` when nothing was set), whether a
keyframe was created, and how many map points were unprojected. -/
structure StereoInitResult where
  state : TrackingState
  pose : Option Mat4
  kfCreated : Bool
  mapPointsCreated : ℕ
deriving DecidableEq

/-- `Tracking::StereoInitialization` (`Tracking.cc:328-375`), with the
current frame given by its per-keypoint depth list `mvDepth` (so
`mCurrentFrame.N` is the list length).  If `N > 500`: the pose is set to
the identity, a keyframe is created, and one map point is unprojected
for every keypoint with depth `z > 0`; the state becomes `OK`.
Otherwise nothing happens and the state remains as it was. -/
def stereoInitialization (depths : List ℚ) (st : TrackingState) :
    StereoInitResult :=
  if depths.length > 500 then
    { state := OK
      pose := some idMat4
      kfCreated := true
      mapPointsCreated := (depths.filter (fun z => decide (0 < z))).length }
  else
    { state := st, pose := none, kfCreated := false, mapPointsCreated := 0 }

/-- Number of keypoints of the frame that have valid (positive) depth;
this is the quantity that the RGBD-bootstrap condition of the specification is
stated about. -/
def validDepthCount (depths : List ℚ) : ℕ :=
  (depths.filter (fun z => decide (0 < z))).length

/-- 3D point, entries as exact rationals. -/
def Vec3 : Type := Fin 3 → ℚ

instance : DecidableEq Vec3 :=
  inferInstanceAs (DecidableEq (Fin 3 → ℚ))

/-- `Tc2w.block<3,1>(0,3) = Tc2w.block<3,1>(0,3) * s`: scale the
translation column (rows 0..2 of column 3) of a 4x4 pose. -/
def scaleTranslation (T : Mat4) (s : ℚ) : Mat4 :=
  fun i j => if i.val < 3 ∧ j.val = 3 then s * T i j else T i j

/-- Result of `Tracking::CreateInitialMapMonocular` after the global BA:
tracker state, whether `Reset()` was invoked, the pose of the current keyframe, and the map-point positions. -/
structure MonoInitResult where
  state : TrackingState
  resetCalled : Bool
  curKFPose : Mat4
  points : List Vec3
deriving DecidableEq

/-- The tail of `Tracking::CreateInitialMapMonocular`
(`Tracking.cc:484-530`) after `GlobalBundleAdjustemnt`: with
`medianDepth = pKFini->ComputeSceneMedianDepth(2)` and
`trackedLevel1 = pKFcur->TrackedMapPoints(1)` as oracles.  The code
computes `invMedianDepth = 1/medianDepth`, and if `medianDepth < 0` or
`trackedLevel1 < 100` calls `Reset()` (which sets the state to
`NO_IMAGES_YET`, `Tracking.cc:1422`) and returns; otherwise it scales the
translation of the current keyframe and all map-point positions by
`invMedianDepth` and sets the state to `OK`. -/
def createInitialMapMonocular (medianDepth : ℚ) (trackedLevel1 : ℕ)
    (Tc2w : Mat4) (pts : List Vec3) : MonoInitResult :=
  let invMedianDepth := 1 / medianDepth
  if medianDepth < 0 ∨ trackedLevel1 < 100 then
    { state := NO_IMAGES_YET, resetCalled := true,
      curKFPose := Tc2w, points := pts }
  else
    { state := OK, resetCalled := false,
      curKFPose := scaleTranslation Tc2w invMedianDepth,
      points := pts.map (fun p i => invMedianDepth * p i) }

/-- One keypoint of the current frame as inspected by the close-point
census of `Tracking::NeedNewKeyFrame` (`Tracking.cc:1077-1086`): its
depth `mvDepth[i]`, whether `mvpMapPoints[i]` is set, and
`mvbOutlier[i]`. -/
structure DepthSlot where
  depth : ℚ
  hasMapPoint : Bool
  outlier : Bool
deriving DecidableEq

/-- `nTrackedClose` of `Tracking::NeedNewKeyFrame`: keypoints with
`0 < depth < thDepth` that carry a non-outlier map point. -/
def nTrackedClose (thDepth : ℚ) (slots : List DepthSlot) : ℕ :=
  (slots.filter (fun s =>
    decide (0 < s.depth) && decide (s.depth < thDepth)
      && s.hasMapPoint && !s.outlier)).length

/-- `nNonTrackedClose` of `Tracking::NeedNewKeyFrame`: keypoints with
`0 < depth < thDepth` that do not carry a non-outlier map point. -/
def nNonTrackedClose (thDepth : ℚ) (slots : List DepthSlot) : ℕ :=
  (slots.filter (fun s =>
    decide (0 < s.depth) && decide (s.depth < thDepth)
      && !(s.hasMapPoint && !s.outlier))).length

/-- All inputs of one evaluation of `Tracking::NeedNewKeyFrame`
(`Tracking.cc:1052-1125`): local-mapper flags, map and frame counters,
the frame windows of the tracker, the `TrackedMapPoints` oracle of the
reference keyframe (indexed by the minimum-observation argument), the
RGBD depth census data, the current inlier count, and the queue length of the local
mapper. -/
structure KFDecisionInput where
  isStopped : Bool
  stopReq : Bool
  nKFs : ℕ
  frameId : ℕ
  lastRelocId : ℕ
  lastKFId : ℕ
  maxFrames : ℚ
  minFrames : ℚ
  usePattern : Bool
  trackedMapPoints : ℕ → ℕ
  acceptKeyFrames : Bool
  isRGBD : Bool
  thDepth : ℚ
  depthSlots : List DepthSlot
  matchesInliers : ℕ
  kfsInQueue : ℕ

/-- `Tracking::NeedNewKeyFrame` (`Tracking.cc:1052-1125`).  Returns
false immediately if the local mapper is stopped or a stop was
requested, or if the frame is within `mMaxFrames` of the last
relocalization while the map holds more than `mMaxFrames` keyframes.
Otherwise evaluates conditions `c1a`/`c1b`/`c1c` and `c2` and, when they
fire, admits directly if the local mapper is idle, else interrupts BA
and admits only in RGBD mode with fewer than 3 queued keyframes. -/
def needNewKeyFrame (x : KFDecisionInput) : Bool :=
  if x.isStopped || x.stopReq then false
  else if decide ((x.frameId : ℚ) < (x.lastRelocId : ℚ) + x.maxFrames)
      && decide ((x.nKFs : ℚ) > x.maxFrames) then false
  else
    let nMinObs : ℕ :=
      if x.nKFs = 1 && x.usePattern then 1
      else if x.nKFs ≤ 2 then 2
      else 3
    let nRefMatches := x.trackedMapPoints nMinObs
    let idle := x.acceptKeyFrames
    let nTracked := if x.isRGBD then nTrackedClose x.thDepth x.depthSlots else 0
    let nNonTracked :=
      if x.isRGBD then nNonTrackedClose x.thDepth x.depthSlots else 0
    let bNeedToInsertClose := nTracked < 100 && nNonTracked > 70
    let thRef : ℚ :=
      if !x.isRGBD then 9/10
      else if x.nKFs < 2 then 4/10
      else 75/100
    let c1a := decide ((x.frameId : ℚ) ≥ (x.lastKFId : ℚ) + x.maxFrames)
    let c1b := decide ((x.frameId : ℚ) ≥ (x.lastKFId : ℚ) + x.minFrames) && idle
    let c1c := x.isRGBD
      && (decide ((x.matchesInliers : ℚ) < (nRefMatches : ℚ) * (25/100))
          || bNeedToInsertClose)
    let c2 := (decide ((x.matchesInliers : ℚ) < (nRefMatches : ℚ) * thRef)
          || bNeedToInsertClose) && decide (x.matchesInliers > 15)
    if (c1a || c1b || c1c) && c2 then
      if idle then true
      else if x.isRGBD then decide (x.kfsInQueue < 3)
      else false
    else false

/-- The early-loss check at the end of `Tracking::Track`
(`Tracking.cc:306-313`): when the state is `LOST` and the map holds at
most 5 keyframes, `mpSystem->Reset()` is requested. -/
def systemResetRequested (st : TrackingState) (nKFs : ℕ) : Bool :=
  match st with
  | LOST => decide (nKFs ≤ 5)
  | _ => false

/-- The initial-estimation dispatch of `Tracking::Track` for an
initialized tracker (`Tracking.cc:230-250`): in state `OK` the normal
tracking paths run; in any other (initialized) state, `Relocalization`
is attempted. -/
def trackAttemptsReloc (st : TrackingState) : Bool :=
  if st = OK then false else true

/-- Effect of `Tracking::Reset` (`Tracking.cc:1403-1431`) on the tracker
state and the map: the map is cleared and the state becomes
`NO_IMAGES_YET`; the state and keyframe count after the reset. -/
def trackingResetState : TrackingState × ℕ := (NO_IMAGES_YET, 0)

/-- The frame-window setup of the `Tracking` constructor
(`Tracking.cc:72-78`): `fps` is read from the configuration; if it
equals 0 it is replaced by 30; then `mMinFrames = 0` and
`mMaxFrames = fps`.  Returns `(mMinFrames, mMaxFrames)`. -/
def trackingCtorFrameWindows (cfgFps : ℚ) : ℚ × ℚ :=
  let fps := if cfgFps = 0 then 30 else cfgFps
  (0, fps)

/-- Default camera fps of the configuration (`Config.cc:41`):
`camera_params_.fps = 30.0`. -/
def configDefaultFps : ℚ := 30

/-- A concrete oracle for one failed frame: image alignment fails and
both projection searches return 0 matches, with 10 keyframes in the
map. -/
def failedFrameOracle : OkTrackOracle :=
  { refOracle :=
      { alignOk := false, alignedPose := zeroMat4, nmatches1 := 0,
        nmatches2 := 0, optPose := zeroMat4, nmatchesMap := 0 }
    localSlots := []
    localOptPose := zeroMat4
    nKFs := 10 }

/-- A concrete keyframe-decision input in which the local mapper is
stopped while every admission condition (`c1b` via an idle mapper and a
passed frame window, and `c2` via 100 inliers against 1000 reference
matches) holds. -/
def stoppedMapperInput : KFDecisionInput :=
  { isStopped := true
    stopReq := false
    nKFs := 10
    frameId := 100
    lastRelocId := 0
    lastKFId := 0
    maxFrames := 30
    minFrames := 0
    usePattern := false
    trackedMapPoints := fun _ => 1000
    acceptKeyFrames := true
    isRGBD := false
    thDepth := 40
    depthSlots := []
    matchesInliers := 100
    kfsInQueue := 0 }

/-- C2: `TrackLocalMap` counts as inliers exactly the matched
non-outlier map points with at least one observation; the frame fails
(state becomes `LOST`) iff this count is strictly below 15, and with at
least 15 inliers the state stays `OK`. -/
theorem C2_trackLocalMap_inlierRule (slots : List FrameSlot) :
    countMatchesInliers slots = specInlierCount slots ∧
    (trackStateAfter (trackLocalMapOk slots) = LOST ↔
      countMatchesInliers slots < 15) ∧
    (15 ≤ countMatchesInliers slots →
      trackStateAfter (trackLocalMapOk slots) = OK) := by
  refine ⟨?_, ?_, ?_⟩
  · induction slots with
    | nil => rfl
    | cons s rest ih =>
        rcases s with ⟨hmp, outl, obs⟩
        cases hmp <;> cases outl <;> by_cases hobs : 0 < obs <;>
          simp [countMatchesInliers, specInlierCount, ih, hobs,
            Nat.add_comm]
  · unfold trackStateAfter trackLocalMapOk
    by_cases h : countMatchesInliers slots < 15 <;> simp [h]
  · intro h
    unfold trackStateAfter trackLocalMapOk
    simp [Nat.not_lt.2 h]

/-- C2 witness: a frame with exactly 15 matched, non-outlier,
once-observed slots keeps the state `OK`. -/
theorem C2_trackLocalMap_inlierRule_witness :
    trackStateAfter (trackLocalMapOk
      (List.replicate 15 ⟨true, false, 1⟩)) = OK :=
  (C2_trackLocalMap_inlierRule (List.replicate 15 ⟨true, false, 1⟩)).2.2
    (by decide)

/-- C5 counterexample: with a warm motion model, the frame whose id is
`last_reloc_id + 2` satisfies the guard claimed by the specification
(`id ≤ last_reloc_id + 2`, here `2 ≤ 0 + 2`) yet the code routes it
through the motion model, not through `TrackReferenceKeyFrame`. -/
theorem C5_dispatch_cex :
    trackUsesRefKF true 2 0 = false ∧ 2 ≤ 0 + 2 := by decide

/-- C5 (amended): reference-keyframe tracking is chosen iff the motion
model is cold or the current frame id is strictly below
`last_reloc_id + 2` (that is, at most `last_reloc_id + 1`); hence with a
warm motion model only the frame immediately after a relocalization is
forced through `TrackReferenceKeyFrame`, and the second frame after it
already uses the motion model. -/
theorem C5_dispatch_rule (started : Bool) (frameId lastRelocId : ℕ) :
    (trackUsesRefKF started frameId lastRelocId = true ↔
      started = false ∨ frameId < lastRelocId + 2) ∧
    trackUsesRefKF true (lastRelocId + 1) lastRelocId = true ∧
    trackUsesRefKF true (lastRelocId + 2) lastRelocId = false := by
  unfold trackUsesRefKF
  refine ⟨?_, by simp, by simp⟩
  cases started <;> simp

/-- C5 witness: at `last_reloc_id = 7`, frame 8 routes through the
reference keyframe and frame 9 does not. -/
theorem C5_dispatch_rule_witness :
    trackUsesRefKF true 8 7 = true ∧ trackUsesRefKF true 9 7 = false :=
  ⟨(C5_dispatch_rule true 8 7).2.1, (C5_dispatch_rule true 9 7).2.2⟩

/-- C6: when image alignment fails in `TrackReferenceKeyFrame`, the
frame pose at the point where descriptor matching begins equals the seed
`last_frame` pose exactly. -/
theorem C6_alignFailure_keepsSeed (lastPose : Mat4) (o : RefTrackOracle)
    (h : o.alignOk = false) :
    trackRefPoseAfterAlign true lastPose o = lastPose := by
  simp [trackRefPoseAfterAlign, h]

/-- C6 witness: with a concrete failing alignment, the identity seed is
preserved. -/
theorem C6_alignFailure_keepsSeed_witness :
    trackRefPoseAfterAlign true idMat4
      { alignOk := false, alignedPose := zeroMat4, nmatches1 := 0,
        nmatches2 := 0, optPose := zeroMat4, nmatchesMap := 0 } = idMat4 :=
  C6_alignFailure_keepsSeed idMat4 _ rfl

/-- C9: when `Track` ends in `LOST` with at most 5 keyframes in the map,
a full system reset is requested, and `Tracking::Reset` brings the
tracker to `NO_IMAGES_YET` with an empty map; with more than 5 keyframes
no reset is requested and the next frame goes to the relocalization
branch. -/
theorem C9_earlyLossReset (bOK : Bool) (nKFs : ℕ) :
    (trackStateAfter bOK = LOST → nKFs ≤ 5 →
      systemResetRequested (trackStateAfter bOK) nKFs = true ∧
      trackingResetState = (NO_IMAGES_YET, 0)) ∧
    (5 < nKFs →
      systemResetRequested (trackStateAfter bOK) nKFs = false ∧
      (trackStateAfter bOK = LOST →
        trackAttemptsReloc (trackStateAfter bOK) = true)) := by
  cases bOK
  · refine ⟨fun _ h => ⟨by simp [systemResetRequested, trackStateAfter, h],
      rfl⟩, fun h => ⟨?_, fun _ => rfl⟩⟩
    simp [systemResetRequested, trackStateAfter]
    omega
  · exact ⟨fun h => absurd h (by simp [trackStateAfter]),
      fun h => ⟨by simp [systemResetRequested, trackStateAfter],
        fun hc => absurd hc (by simp [trackStateAfter])⟩⟩

/-- C9 witness: a failed frame with 3 keyframes triggers the reset
request; with 6 keyframes it does not and relocalization follows. -/
theorem C9_earlyLossReset_witness :
    (systemResetRequested (trackStateAfter false) 3 = true ∧
      trackingResetState = (NO_IMAGES_YET, 0)) ∧
    systemResetRequested (trackStateAfter false) 6 = false ∧
    trackAttemptsReloc (trackStateAfter false) = true :=
  ⟨(C9_earlyLossReset false 3).1 rfl (by decide),
   ((C9_earlyLossReset false 6).2 (by decide)).1,
   ((C9_earlyLossReset false 6).2 (by decide)).2 rfl⟩

/-- C10: in the `Tracking` constructor a configured fps of 0 is replaced
by 30 before deriving the frame windows, so `mMaxFrames` equals the
configured fps when it is nonzero and 30 otherwise, `mMinFrames` is
always 0, and the configuration default fps of 30 passes through
unchanged. -/
theorem C10_frameWindows (cfgFps : ℚ) :
    (trackingCtorFrameWindows cfgFps).1 = 0 ∧
    (cfgFps ≠ 0 → (trackingCtorFrameWindows cfgFps).2 = cfgFps) ∧
    (trackingCtorFrameWindows 0).2 = 30 ∧
    (trackingCtorFrameWindows configDefaultFps).2 = configDefaultFps := by
  refine ⟨rfl, fun h => ?_, by norm_num [trackingCtorFrameWindows], ?_⟩
  · simp [trackingCtorFrameWindows, h]
  · simp [trackingCtorFrameWindows, configDefaultFps]

/-- C10 witness: a configured fps of 25 is kept as `mMaxFrames`. -/
theorem C10_frameWindows_witness :
    (trackingCtorFrameWindows 25).2 = 25 :=
  (C10_frameWindows 25).2.1 (by norm_num)

/-- C1 counterexample: a frame processed from state `OK` with the
identity as last-frame pose, on which image alignment and both
projection searches fail, leaves the tracker in a non-`OK` state while
the `GrabImage*` call returns a nonzero pose matrix, so a non-`OK`
state does not imply a zero-matrix return. -/
theorem C1_zeroPoseReturn_cex :
    (grabFromOkColdModel idMat4 failedFrameOracle).state ≠ OK ∧
    ¬ isZero (grabFromOkColdModel idMat4 failedFrameOracle).pose := by
  decide

/-- C1 (amended): when a frame processed in state `OK` through the
reference-keyframe path fails at the matching stage (fewer than 20
matches in both searches), the state becomes `LOST` and the returned
pose equals the seed `last_frame` pose, which is nonzero for any frame
following a tracked one; the zero matrix is returned only when no pose
was ever assigned to the frame, so a zero return implies
not-tracking but not conversely. -/
theorem C1_failedFrame_returnsSeedPose (lastPose : Mat4)
    (o : OkTrackOracle) (h1 : o.refOracle.nmatches1 < 20)
    (h2 : o.refOracle.nmatches2 < 20) :
    (grabFromOkColdModel lastPose o).state = LOST ∧
    (grabFromOkColdModel lastPose o).pose = lastPose := by
  unfold grabFromOkColdModel trackReferenceKeyFrame
  simp [h1, h2, trackStateAfter]

/-- C1 witness: the amended statement at the concrete failed frame. -/
theorem C1_failedFrame_returnsSeedPose_witness :
    (grabFromOkColdModel idMat4 failedFrameOracle).state = LOST ∧
    (grabFromOkColdModel idMat4 failedFrameOracle).pose = idMat4 :=
  C1_failedFrame_returnsSeedPose idMat4 failedFrameOracle (by decide)
    (by decide)

set_option maxRecDepth 10000 in
/-- C3 counterexample: a first RGBD frame with 501 keypoints, none of
which has valid depth, bootstraps into `OK` while creating zero map
points: the admission test of `StereoInitialization` is on the total
keypoint count `N`, not on the number of keypoints with valid depth. -/
theorem C3_stereoInit_cex :
    (stereoInitialization (List.replicate 501 0) NOT_INITIALIZED).state
      = OK ∧
    validDepthCount (List.replicate 501 0) = 0 := by decide

/-- C3 (amended): RGBD bootstrap succeeds exactly when the first frame
has more than 500 keypoints, whatever their depths: with 500 keypoints
the state stays `NOT_INITIALIZED`, with 501 it becomes `OK`; on success
the pose is set to the identity, the frame is promoted to a keyframe,
and every keypoint with positive depth is unprojected into a map
point. -/
theorem C3_stereoInit_rule (depths : List ℚ) :
    (500 < depths.length →
      stereoInitialization depths NOT_INITIALIZED =
        { state := OK, pose := some idMat4, kfCreated := true,
          mapPointsCreated := validDepthCount depths }) ∧
    (depths.length ≤ 500 →
      stereoInitialization depths NOT_INITIALIZED =
        { state := NOT_INITIALIZED, pose := none, kfCreated := false,
          mapPointsCreated := 0 }) := by
  constructor
  · intro h
    simp [stereoInitialization, validDepthCount, h]
  · intro h
    unfold stereoInitialization
    rw [if_neg (by omega)]

/-- C3 witness: a frame with 501 unit-depth keypoints bootstraps. -/
theorem C3_stereoInit_rule_witness :
    stereoInitialization (List.replicate 501 (1:ℚ)) NOT_INITIALIZED =
      { state := OK, pose := some idMat4, kfCreated := true,
        mapPointsCreated :=
          validDepthCount (List.replicate 501 (1:ℚ)) } :=
  (C3_stereoInit_rule (List.replicate 501 1)).1
    (by rw [List.length_replicate]; omega)

/-- C4: in `TrackWithNewIMUModel`, whenever the angular distance between
the last-frame rotation and the Madgwick orientation exceeds 0.02 rad,
the predicted pose handed to matching has its 3x3 rotation block
replaced by the Madgwick rotation while its translation column and
bottom row are retained from the motion-model prediction; at angular
distance at most 0.02 rad the motion-model prediction is used
unmodified. -/
theorem replaceRotBlock_rot (T : Mat4) (R : Mat3) (i j : Fin 4)
    (hi : i.val < 3) (hj : j.val < 3) :
    replaceRotBlock T R i j = R ⟨i.val, hi⟩ ⟨j.val, hj⟩ := by
  unfold replaceRotBlock
  exact dif_pos ⟨hi, hj⟩

theorem replaceRotBlock_outside (T : Mat4) (R : Mat3) (i j : Fin 4)
    (hij : ¬(i.val < 3 ∧ j.val < 3)) :
    replaceRotBlock T R i j = T i j := by
  unfold replaceRotBlock
  exact dif_neg hij

theorem imuPredictedPose_of_curve (T : Mat4) (R : Mat3) (angle : ℚ)
    (h : 2/100 < angle) :
    imuPredictedPose T R angle = replaceRotBlock T R := by
  simp only [imuPredictedPose, gt_iff_lt]
  rw [if_pos h]

theorem C4_imuRotationReplacement (T : Mat4) (R : Mat3) (angle : ℚ) :
    (2/100 < angle →
      (∀ (i j : Fin 4) (hi : i.val < 3) (hj : j.val < 3),
        imuPredictedPose T R angle i j = R ⟨i.val, hi⟩ ⟨j.val, hj⟩) ∧
      (∀ (i j : Fin 4), ¬(i.val < 3 ∧ j.val < 3) →
        imuPredictedPose T R angle i j = T i j)) ∧
    (angle ≤ 2/100 → imuPredictedPose T R angle = T) := by
  constructor
  · intro h
    refine ⟨fun i j hi hj => ?_, fun i j hij => ?_⟩
    · rw [imuPredictedPose_of_curve T R angle h,
        replaceRotBlock_rot T R i j hi hj]
    · rw [imuPredictedPose_of_curve T R angle h,
        replaceRotBlock_outside T R i j hij]
  · intro h
    simp only [imuPredictedPose, gt_iff_lt]
    rw [if_neg (not_lt.2 h)]

/-- C4 witness: with the Madgwick rotation constantly 5, an angle of 1
rad replaces the rotation entry (0,0) and keeps the translation entry
(0,3); an angle of 0.01 rad keeps the whole prediction. -/
theorem C4_imuRotationReplacement_witness :
    imuPredictedPose idMat4 (fun _ _ => 5) 1 (⟨0, by decide⟩ : Fin 4)
      (⟨0, by decide⟩ : Fin 4) = 5 ∧
    imuPredictedPose idMat4 (fun _ _ => 5) 1 (⟨0, by decide⟩ : Fin 4)
      (⟨3, by decide⟩ : Fin 4)
      = idMat4 (⟨0, by decide⟩ : Fin 4) (⟨3, by decide⟩ : Fin 4) ∧
    imuPredictedPose idMat4 (fun _ _ => 5) (1/100) = idMat4 := by
  refine ⟨?_, ?_, ?_⟩
  · exact ((C4_imuRotationReplacement idMat4 (fun _ _ => 5) 1).1
      (by norm_num)).1 (⟨0, by decide⟩ : Fin 4) (⟨0, by decide⟩ : Fin 4)
      (by decide) (by decide)
  · exact ((C4_imuRotationReplacement idMat4 (fun _ _ => 5) 1).1
      (by norm_num)).2 (⟨0, by decide⟩ : Fin 4) (⟨3, by decide⟩ : Fin 4)
      (by decide)
  · exact (C4_imuRotationReplacement idMat4 (fun _ _ => 5) (1/100)).2
      (by norm_num)

/-- C7 counterexample: at median scene depth exactly 0 with 100 tracked
level-1 points the code does not reset and enters `OK`, although the
claim requires a bootstrap failure at median depth `≤ 0`; moreover on an
actual failure the state is `NO_IMAGES_YET` (full reset), not
`NOT_INITIALIZED`. -/
theorem C7_monoInitReset_cex :
    (createInitialMapMonocular 0 100 idMat4 []).resetCalled = false ∧
    (createInitialMapMonocular 0 100 idMat4 []).state = OK ∧
    (createInitialMapMonocular (-1) 100 idMat4 []).state
      ≠ NOT_INITIALIZED := by
  decide

/-- C7 (amended): monocular bootstrap fails, invoking the full reset
that leaves the system in `NO_IMAGES_YET`, exactly when the post-BA
median scene depth is strictly negative or fewer than 100 points are
tracked at scale level 1; otherwise the current-keyframe translation and
the point positions are rescaled by the inverse median depth and the
state becomes `OK`. -/
theorem C7_monoInitReset_rule (md : ℚ) (tr : ℕ) (T : Mat4)
    (pts : List Vec3) :
    ((createInitialMapMonocular md tr T pts).resetCalled = true ↔
      md < 0 ∨ tr < 100) ∧
    (md < 0 ∨ tr < 100 →
      (createInitialMapMonocular md tr T pts).state = NO_IMAGES_YET) ∧
    (¬(md < 0 ∨ tr < 100) →
      (createInitialMapMonocular md tr T pts).state = OK ∧
      (createInitialMapMonocular md tr T pts).curKFPose =
        scaleTranslation T (1/md) ∧
      (createInitialMapMonocular md tr T pts).points =
        pts.map (fun p i => (1/md) * p i)) := by
  by_cases h : md < 0 ∨ tr < 100 <;>
    simp [createInitialMapMonocular, h]

/-- C7 witness: a negative median depth resets to `NO_IMAGES_YET`; a
zero median depth with 100 tracked points proceeds to `OK`. -/
theorem C7_monoInitReset_rule_witness :
    (createInitialMapMonocular (-1) 100 idMat4 []).state
      = NO_IMAGES_YET ∧
    (createInitialMapMonocular 0 100 idMat4 []).state = OK :=
  ⟨(C7_monoInitReset_rule (-1) 100 idMat4 []).2.1
      (Or.inl (by norm_num)),
   ((C7_monoInitReset_rule 0 100 idMat4 []).2.2 (by decide)).1⟩

/-- C8: `NeedNewKeyFrame` returns false whenever the local mapper is
stopped or a stop is requested, and whenever the current frame id is
within `mMaxFrames` of the last relocalization while the map already
holds more than `mMaxFrames` keyframes, regardless of the admission
conditions; the keyframe decision is taken after the state commit, so a
successful frame stays in `OK`. -/
theorem C8_keyframeSuppression (x : KFDecisionInput) :
    (x.isStopped = true ∨ x.stopReq = true → needNewKeyFrame x = false) ∧
    ((x.frameId : ℚ) < (x.lastRelocId : ℚ) + x.maxFrames →
      (x.nKFs : ℚ) > x.maxFrames → needNewKeyFrame x = false) ∧
    trackStateAfter true = OK := by
  refine ⟨?_, ?_, rfl⟩
  · rintro (h | h) <;> simp [needNewKeyFrame, h]
  · intro h1 h2
    unfold needNewKeyFrame
    cases hs : (x.isStopped || x.stopReq)
    · simp [hs, h1, h2]
    · simp [hs]

/-- C8 witness: with the local mapper stopped, the concrete input on
which conditions `c1b` and `c2` hold admits no keyframe; flipping only
the stopped flag admits one. -/
theorem C8_keyframeSuppression_witness :
    needNewKeyFrame stoppedMapperInput = false ∧
    needNewKeyFrame { stoppedMapperInput with isStopped := false }
      = true :=
  ⟨(C8_keyframeSuppression stoppedMapperInput).1 (Or.inl rfl),
   by norm_num [needNewKeyFrame, stoppedMapperInput, nTrackedClose,
     nNonTrackedClose]⟩

end SDSLAM
